import Mathlib

/-!
Verification of the CoffeeShop backend (src/backend/src/api.py) against its
specification.  The Flask route handlers of api.py are embedded as pure Lean
functions over an explicit store state.  The database layer (models.py) and
the authorization layer (auth/auth.py) are not part of the sources; where a
claim depends on them they are modelled from the specification, as indicated
by doc comments.
-/

namespace CoffeeShop

/-- A minimal JSON value type, used for request/response bodies and the two
projections of a drink. -/
inductive Json where
  | null : Json
  | bool (b : Bool) : Json
  | num (n : Int) : Json
  | str (s : String) : Json
  | arr (elems : List Json) : Json
  | obj (fields : List (String × Json)) : Json
deriving Repr

/-- One ingredient entry of a recipe: an ingredient name, a color label and a
numeric quantity (spec section 3). -/
structure RecipeEntry where
  name : String
  color : String
  parts : Int
deriving Repr, DecidableEq

/-- A stored drink row: numeric primary key, title column, and the recipe
column.  The recipe is stored serialized (json.dumps) and parsed back
(json.loads) when projected; since dumps/loads round-trips, the row carries
the parsed value.  `json.dumps(None)` stores JSON null, modelled as `none`. -/
structure Drink where
  id : Nat
  title : Option String
  recipe : Option (List RecipeEntry)
deriving Repr, DecidableEq

/-- The JSON request body of create/update: `data.get("title")` and
`data.get("recipe")` in api.py return None when the field is absent. -/
structure DrinkBody where
  title : Option String
  recipe : Option (List RecipeEntry)
deriving Repr, DecidableEq

/-- The drinks table together with the store's id sequence. -/
structure Store where
  rows : List Drink
  nextId : Nat
deriving Repr, DecidableEq

/-- The empty store, as produced by db_drop_and_create_all. -/
def store0 : Store := ⟨[], 1⟩

def optStr : Option String → Json
  | none => .null
  | some s => .str s

/-- Modelled from the spec: Drink.long of models.py is not under src.  The
detailed projection exposes id, title and the full recipe entries, each with
name, color and parts fields in that order (spec section 3). -/
def Drink.long (d : Drink) : Json :=
  .obj [("id", .num d.id), ("title", optStr d.title),
        ("recipe",
          match d.recipe with
          | none => .null
          | some es => .arr (es.map fun e =>
              .obj [("name", .str e.name), ("color", .str e.color),
                    ("parts", .num e.parts)]))]

/-- Modelled from the spec: Drink.short of models.py is not under src.  The
brief projection is the detailed one with the ingredient names omitted from
each recipe entry (spec section 3). -/
def Drink.short (d : Drink) : Json :=
  .obj [("id", .num d.id), ("title", optStr d.title),
        ("recipe",
          match d.recipe with
          | none => .null
          | some es => .arr (es.map fun e =>
              .obj [("color", .str e.color), ("parts", .num e.parts)]))]

/-- Whether a new title violates the unique constraint against the given
rows.  As in SQL, a null title does not collide. -/
def titleTaken (rows : List Drink) (title : Option String) : Bool :=
  match title with
  | some t => rows.any (fun d => d.title == some t)
  | none => false

/-- Whether a new title for row `i` violates the unique constraint against
the other rows. -/
def titleTakenByOther (rows : List Drink) (i : Nat)
    (title : Option String) : Bool :=
  match title with
  | some t => rows.any (fun d => d.id != i && d.title == some t)
  | none => false

/-- Modelled from the spec: the insert of models.py is not under src.  The
store assigns the next id and commits atomically; the unique constraint on
the title column rejects a title equal to an existing row's title ("title
uniqueness enforced by store", spec section 4.2).  As in SQL, null titles do
not collide. -/
def Store.insertDrink (st : Store) (title : Option String)
    (recipe : Option (List RecipeEntry)) : Except Unit Store :=
  if titleTaken st.rows title then .error ()
  else .ok ⟨st.rows ++ [⟨st.nextId, title, recipe⟩], st.nextId + 1⟩

/-- Modelled from the spec: the update of models.py is not under src.  The
row's title and recipe columns are overwritten wholesale (omitted fields are
written as null, spec section 4.2); the unique constraint on the title column
rejects a non-null title equal to another row's title. -/
def Store.updateRow (st : Store) (i : Nat) (title : Option String)
    (recipe : Option (List RecipeEntry)) : Except Unit Store :=
  if titleTakenByOther st.rows i title then .error ()
  else .ok ⟨st.rows.map (fun d =>
      if d.id = i then { d with title := title, recipe := recipe } else d),
    st.nextId⟩

/-- The 500 body of get_drinks / get_drink_details (api.py lines 41-44,
69-72). -/
def errOccurred : Json :=
  .obj [("success", .bool false), ("error", .str "An error occurred")]

/-- The 500 body of post_drink / update_drink / delete_drink (api.py lines
104-107, 146-149, 179-182): note the different spelling of the error text. -/
def errOccured : Json :=
  .obj [("success", .bool false), ("error", .str "An error occured")]

/-- The 404 body produced by the not_found error handler (api.py lines
195-201). -/
def notFoundBody : Json :=
  .obj [("success", .bool false), ("error", .num 404),
        ("message", .str "Resource not found")]

/-- GET /drinks (api.py lines 28-44).  The outcome of Drink.query.all() is
passed in so that the except branch is reachable. -/
def get_drinks (q : Except Unit (List Drink)) : Json × Nat :=
  match q with
  | .ok drinks =>
    (.obj [("success", .bool true), ("drinks", .arr (drinks.map Drink.short))],
     200)
  | .error _ => (errOccurred, 500)

/-- GET /drinks-detail (api.py lines 55-72), after the authorization gate. -/
def get_drink_details (q : Except Unit (List Drink)) : Json × Nat :=
  match q with
  | .ok drinks =>
    (.obj [("success", .bool true), ("drinks", .arr (drinks.map Drink.long))],
     200)
  | .error _ => (errOccurred, 500)

/-- POST /drinks (api.py lines 84-107), after the authorization gate.
Returns the new store state together with the response body and status. -/
def post_drink (body : DrinkBody) (st : Store) : Store × Json × Nat :=
  match st.insertDrink body.title body.recipe with
  | .ok st2 =>
    (st2,
     .obj [("success", .bool true), ("drinks", .arr (st2.rows.map Drink.long))],
     200)
  | .error _ => (st, errOccured, 500)

/-- PATCH /drinks/(id) (api.py lines 121-149), after the authorization gate.
The handler first looks the row up by id and aborts with 404 when absent. -/
def update_drink (drinkId : Nat) (body : DrinkBody) (st : Store) :
    Store × Json × Nat :=
  if st.rows.any (fun d => d.id == drinkId) then
    match st.updateRow drinkId body.title body.recipe with
    | .ok st2 =>
      (st2,
       .obj [("success", .bool true),
             ("drinks", .arr (st2.rows.map Drink.long))],
       200)
    | .error _ => (st, errOccured, 500)
  else (st, notFoundBody, 404)

/-- DELETE /drinks/(id) (api.py lines 161-182), after the authorization gate.
The handler first looks the row up by id and aborts with 404 when absent,
then removes the row and answers with the deleted id. -/
def delete_drink (drinkId : Nat) (st : Store) : Store × Json × Nat :=
  if st.rows.any (fun d => d.id == drinkId) then
    (⟨st.rows.filter (fun d => d.id != drinkId), st.nextId⟩,
     .obj [("success", .bool true), ("delete", .num drinkId)],
     200)
  else (st, notFoundBody, 404)

/-- DELETE /drinks/(id) (api.py lines 161-182) with the outcome of the store
commit (drink.delete() inside the try block) made explicit, so that the
except branch at lines 178-182 is reachable: a failed commit leaves the
store unchanged (spec section 5) and answers 500 with the misspelled error
text of line 181.  With a succeeding commit this is exactly delete_drink. -/
def delete_drink_checked (drinkId : Nat) (st : Store) (commitOk : Bool) :
    Store × Json × Nat :=
  if st.rows.any (fun d => d.id == drinkId) then
    if commitOk then
      (⟨st.rows.filter (fun d => d.id != drinkId), st.nextId⟩,
       .obj [("success", .bool true), ("delete", .num drinkId)],
       200)
    else (st, errOccured, 500)
  else (st, notFoundBody, 404)

/-- Field lookup in a JSON object. -/
def jsonField : Json → String → Option Json
  | .obj fields, k => (fields.find? (fun p => p.1 == k)).map Prod.snd
  | _, _ => none

/-- Modelled from the spec: auth/auth.py is not under src.  The verification
outcomes of a bearer token against the trusted key set and the configured
issuer/audience (spec section 4.1, steps 2-4): whether the signing key was
found, whether signature and standard claims verified, and the extracted
scope claim (`none` when the permissions claim is absent). -/
structure Token where
  keyKnown : Bool
  verified : Bool
  scopes : Option (List String)
deriving Repr, DecidableEq

/-- Modelled from the spec: the authorization header of a request, as seen by
step 1 of the gate: absent, not of the Bearer scheme (wrong scheme, extra
segments, or empty), or a bearer token. -/
inductive AuthHeader where
  | missing : AuthHeader
  | malformed : AuthHeader
  | bearer (tok : Token) : AuthHeader
deriving Repr, DecidableEq

/-- The exception raised by the authorization layer: a JSON payload together
with a status code, consumed by handle_auth_error in api.py. -/
structure AuthError where
  error : Json
  status_code : Nat
deriving Repr

/-- The structured error payload of the authorization layer (spec section
4.1). -/
def authEnvelope (code description : String) : Json :=
  .obj [("success", .bool false), ("error", .str code),
        ("description", .str description)]

/-- Modelled from the spec: authorize of auth/auth.py is not under src.
Steps 1-6 of spec section 4.1: header extraction (401 on a missing or
malformed header), key lookup (401 on an unknown key), signature and standard
claims verification (401 on any failure), scope claim extraction (400 when
absent), and the required-scope membership check (403 when missing).  On
success the extracted permission set is returned. -/
def authorize (hdr : AuthHeader) (requiredScope : String) :
    Except AuthError (List String) :=
  match hdr with
  | .missing =>
    .error ⟨authEnvelope "malformed_header" "Authorization header is expected",
            401⟩
  | .malformed =>
    .error ⟨authEnvelope "malformed_header"
              "Authorization header must be a bearer token", 401⟩
  | .bearer tok =>
    if !tok.keyKnown then
      .error ⟨authEnvelope "unknown_key" "Unable to find the appropriate key",
              401⟩
    else if !tok.verified then
      .error ⟨authEnvelope "invalid_token" "Token verification failed", 401⟩
    else
      match tok.scopes with
      | none =>
        .error ⟨authEnvelope "missing_permissions_claim"
                  "Permissions claim not found in token", 400⟩
      | some scopes =>
        if requiredScope ∈ scopes then .ok scopes
        else
          .error ⟨authEnvelope "insufficient_scope"
                    "Required scope not found in token", 403⟩

/-- The AuthError boundary handler (api.py lines 213-217): the response body
is the exception's payload and the status is the exception's status code. -/
def handle_auth_error (e : AuthError) : Json × Nat := (e.error, e.status_code)

/-- The response of the gate on a gated route: the boundary-translated error
when authorization fails, nothing when the handler is reached. -/
def gateResponse (hdr : AuthHeader) (requiredScope : String) :
    Option (Json × Nat) :=
  match authorize hdr requiredScope with
  | .error e => some (handle_auth_error e)
  | .ok _ => none

/-- Removal of the name field from a JSON object (one recipe entry). -/
def stripEntryName : Json → Json
  | .obj fields => .obj (fields.filter fun p => p.1 != "name")
  | j => j

/-- Removal of the name field from every entry of a recipe array. -/
def stripNames : Json → Json
  | .arr entries => .arr (entries.map stripEntryName)
  | j => j

/-- The detailed projection with the name field removed from each recipe
entry; all other fields, and the field order, untouched. -/
def briefOfDetailed : Json → Json
  | .obj fields =>
    .obj (fields.map fun p =>
      if p.1 = "recipe" then (p.1, stripNames p.2) else p)
  | j => j

/-- Store states reachable from the empty store through the three mutating
handlers at arbitrary inputs. -/
inductive Reachable : Store → Prop where
  | init : Reachable store0
  | create (body : DrinkBody) (st : Store) :
      Reachable st → Reachable (post_drink body st).1
  | patch (i : Nat) (body : DrinkBody) (st : Store) :
      Reachable st → Reachable (update_drink i body st).1
  | remove (i : Nat) (st : Store) :
      Reachable st → Reachable (delete_drink i st).1

/-- No two distinct rows share a non-null title. -/
def TitlesOk (rows : List Drink) : Prop :=
  rows.Pairwise fun a b => ∀ t : String, a.title = some t → b.title ≠ some t

/-- Row ids are pairwise distinct and below the store's id sequence. -/
def StoreIdsOk (st : Store) : Prop :=
  st.rows.Pairwise (fun a b => a.id ≠ b.id) ∧ ∀ d ∈ st.rows, d.id < st.nextId

/-- The store invariant maintained by all handlers. -/
def StoreInv (st : Store) : Prop := StoreIdsOk st ∧ TitlesOk st.rows

/-- A concrete reachable store state carrying two rows with equal (null)
titles: two drinks are created, then each is updated with a body omitting
the title, which nulls both stored titles. -/
def dupTitleState : Store :=
  (update_drink 2 ⟨none, none⟩
    (update_drink 1 ⟨none, none⟩
      (post_drink ⟨some "b", none⟩
        (post_drink ⟨some "a", none⟩ store0).1).1).1).1

/-- C1: for every store state and request body, the success (200) responses
of create and of update carry the full current collection of drinks in the
detailed projection, computed on the post-mutation state. -/
theorem c1_mutations_return_full_collection (body : DrinkBody) (st : Store) :
    ((post_drink body st).2.2 = 200 →
      (post_drink body st).2.1 =
        Json.obj [("success", .bool true),
                  ("drinks", .arr ((post_drink body st).1.rows.map Drink.long))]) ∧
    ∀ i : Nat, (update_drink i body st).2.2 = 200 →
      (update_drink i body st).2.1 =
        Json.obj [("success", .bool true),
                  ("drinks", .arr ((update_drink i body st).1.rows.map Drink.long))] := by
  constructor
  · intro h
    unfold post_drink Store.insertDrink at *
    split at h
    · simp_all
    · simp_all
  · intro i h
    unfold update_drink Store.updateRow at *
    split at h
    · split at h
      · simp_all
      · simp_all
    · simp_all

/-- C1 witness: a concrete successful create. -/
theorem c1_witness :
    (post_drink ⟨some "a", none⟩ store0).2.1 =
      Json.obj [("success", .bool true),
                ("drinks",
                 .arr ((post_drink ⟨some "a", none⟩ store0).1.rows.map Drink.long))] :=
  (c1_mutations_return_full_collection ⟨some "a", none⟩ store0).1 rfl

/-- C2: a successful update whose body omits the title field or the recipe
field stores null in that field of the targeted row, rather than keeping the
previous value. -/
theorem c2_update_omitted_field_nulled (i : Nat) (body : DrinkBody)
    (st : Store) (h200 : (update_drink i body st).2.2 = 200) :
    ∀ d ∈ (update_drink i body st).1.rows, d.id = i →
      (body.title = none → d.title = none) ∧
      (body.recipe = none → d.recipe = none) := by
  intro d hd hdi
  by_cases hex : st.rows.any (fun d => d.id == i) = true
  · by_cases hb : titleTakenByOther st.rows i body.title = true
    · simp [update_drink, Store.updateRow, hex, hb] at h200
    · simp only [update_drink, Store.updateRow, hex, hb, if_true,
        Bool.false_eq_true, if_false] at hd
      obtain ⟨d0, hd0, rfl⟩ := List.mem_map.1 hd
      by_cases h : d0.id = i
      · simp [h]
      · simp [h] at hdi
  · simp [update_drink, hex] at h200

/-- C2 witness: updating a concrete drink with an empty body nulls both
fields of the stored row, which becomes the row with id 1 and null title and
recipe. -/
theorem c2_witness :
    (⟨1, none, none⟩ : Drink).title = none ∧
    (⟨1, none, none⟩ : Drink).recipe = none := by
  have h := c2_update_omitted_field_nulled 1 ⟨none, none⟩
    (post_drink ⟨some "a", none⟩ store0).1 rfl ⟨1, none, none⟩ (by decide) rfl
  exact ⟨h.1 rfl, h.2 rfl⟩

/-- C4: an update aimed at an id no row carries answers 404 with the fixed
not-found body and leaves the store unchanged. -/
theorem c4_update_missing_id (i : Nat) (body : DrinkBody) (st : Store)
    (h : ∀ d ∈ st.rows, d.id ≠ i) :
    (update_drink i body st).1 = st ∧
    (update_drink i body st).2.2 = 404 ∧
    (update_drink i body st).2.1 = notFoundBody := by
  have hany : st.rows.any (fun d => d.id == i) = false := by
    simp only [List.any_eq_false]
    intro d hd
    simpa using h d hd
  unfold update_drink
  simp [hany]

/-- C4 witness: updating id 5 in a concrete one-row store. -/
theorem c4_witness :
    (update_drink 5 ⟨some "b", none⟩ (post_drink ⟨some "a", none⟩ store0).1).1 =
      (post_drink ⟨some "a", none⟩ store0).1 ∧
    (update_drink 5 ⟨some "b", none⟩ (post_drink ⟨some "a", none⟩ store0).1).2.2 = 404 ∧
    (update_drink 5 ⟨some "b", none⟩ (post_drink ⟨some "a", none⟩ store0).1).2.1 =
      notFoundBody :=
  c4_update_missing_id 5 ⟨some "b", none⟩ (post_drink ⟨some "a", none⟩ store0).1
    (by decide)

/-- C5: a delete aimed at an id no row carries answers 404 with the fixed
not-found body and leaves the store unchanged. -/
theorem c5_delete_missing_id (i : Nat) (st : Store)
    (h : ∀ d ∈ st.rows, d.id ≠ i) :
    (delete_drink i st).1 = st ∧
    (delete_drink i st).2.2 = 404 ∧
    (delete_drink i st).2.1 = notFoundBody := by
  have hany : st.rows.any (fun d => d.id == i) = false := by
    simp only [List.any_eq_false]
    intro d hd
    simpa using h d hd
  unfold delete_drink
  simp [hany]

/-- C5 witness: deleting id 5 in a concrete one-row store. -/
theorem c5_witness :
    (delete_drink 5 (post_drink ⟨some "a", none⟩ store0).1).1 =
      (post_drink ⟨some "a", none⟩ store0).1 ∧
    (delete_drink 5 (post_drink ⟨some "a", none⟩ store0).1).2.2 = 404 ∧
    (delete_drink 5 (post_drink ⟨some "a", none⟩ store0).1).2.1 = notFoundBody :=
  c5_delete_missing_id 5 (post_drink ⟨some "a", none⟩ store0).1 (by decide)

/-- C6: deleting an id some row carries answers 200 with body success true
and the deleted id, and a subsequent list operation's drinks array contains
no object whose id field is that id. -/
theorem c6_delete_existing_id (i : Nat) (st : Store)
    (h : ∃ d ∈ st.rows, d.id = i) :
    (delete_drink i st).2.2 = 200 ∧
    (delete_drink i st).2.1 =
      Json.obj [("success", .bool true), ("delete", .num i)] ∧
    ∀ js, jsonField (get_drinks (Except.ok (delete_drink i st).1.rows)).1
        "drinks" = some (.arr js) →
      ∀ j ∈ js, jsonField j "id" ≠ some (.num i) := by
  obtain ⟨d0, hd0, hid0⟩ := h
  have hany : st.rows.any (fun d => d.id == i) = true := by
    simp only [List.any_eq_true]
    exact ⟨d0, hd0, by simpa using hid0⟩
  unfold delete_drink
  simp only [hany, if_true]
  refine ⟨trivial, trivial, ?_⟩
  intro js hjs j hj
  replace hjs :
      some (Json.arr ((st.rows.filter (fun d => d.id != i)).map Drink.short)) =
        some (Json.arr js) := hjs
  injection hjs with hjs
  injection hjs with hjs
  subst hjs
  obtain ⟨d, hd, rfl⟩ := List.mem_map.1 hj
  have hdne : (d.id != i) = true := (List.mem_filter.1 hd).2
  have hne : d.id ≠ i := by simpa using hdne
  intro hcontra
  replace hcontra :
      some (Json.num (d.id : Int)) = some (Json.num (i : Int)) := hcontra
  injection hcontra with hcontra
  injection hcontra with hcontra
  exact hne (by exact_mod_cast hcontra)

/-- C6 witness: deleting id 1 from a concrete one-row store. -/
theorem c6_witness :
    (delete_drink 1 (post_drink ⟨some "a", none⟩ store0).1).2.2 = 200 ∧
    (delete_drink 1 (post_drink ⟨some "a", none⟩ store0).1).2.1 =
      Json.obj [("success", .bool true), ("delete", .num 1)] ∧
    ∀ js, jsonField
        (get_drinks (Except.ok
          (delete_drink 1 (post_drink ⟨some "a", none⟩ store0).1).1.rows)).1
        "drinks" = some (.arr js) →
      ∀ j ∈ js, jsonField j "id" ≠ some (.num 1) :=
  c6_delete_existing_id 1 (post_drink ⟨some "a", none⟩ store0).1
    ⟨⟨1, some "a", none⟩, by decide, rfl⟩

/-- C10: a successful delete removes exactly the rows carrying the targeted
id: a row survives iff it was present and carries a different id (so every
other row is untouched and none is added), and the surviving rows keep their
order. -/
theorem c10_delete_frame (i : Nat) (st : Store)
    (h : ∃ d ∈ st.rows, d.id = i) :
    (∀ d : Drink, d ∈ (delete_drink i st).1.rows ↔ d ∈ st.rows ∧ d.id ≠ i) ∧
    (delete_drink i st).1.rows.Sublist st.rows ∧
    (delete_drink i st).1.nextId = st.nextId := by
  obtain ⟨d0, hd0, hid0⟩ := h
  have hany : st.rows.any (fun d => d.id == i) = true := by
    simp only [List.any_eq_true]
    exact ⟨d0, hd0, by simpa using hid0⟩
  unfold delete_drink
  simp only [hany, if_true]
  refine ⟨?_, List.filter_sublist _, trivial⟩
  intro d
  rw [List.mem_filter]
  simp

/-- C10 witness: deleting id 1 from a concrete two-row store keeps exactly
the other row. -/
theorem c10_witness :
    (∀ d : Drink,
      d ∈ (delete_drink 1 (post_drink ⟨some "b", none⟩
            (post_drink ⟨some "a", none⟩ store0).1).1).1.rows ↔
      d ∈ (post_drink ⟨some "b", none⟩
            (post_drink ⟨some "a", none⟩ store0).1).1.rows ∧ d.id ≠ 1) ∧
    (delete_drink 1 (post_drink ⟨some "b", none⟩
        (post_drink ⟨some "a", none⟩ store0).1).1).1.rows.Sublist
      (post_drink ⟨some "b", none⟩
        (post_drink ⟨some "a", none⟩ store0).1).1.rows ∧
    (delete_drink 1 (post_drink ⟨some "b", none⟩
        (post_drink ⟨some "a", none⟩ store0).1).1).1.nextId =
      (post_drink ⟨some "b", none⟩
        (post_drink ⟨some "a", none⟩ store0).1).1.nextId :=
  c10_delete_frame 1
    (post_drink ⟨some "b", none⟩ (post_drink ⟨some "a", none⟩ store0).1).1
    ⟨⟨1, some "a", none⟩, by decide, rfl⟩

/-- C7 counterexample: the claim says every operation's store failure body is
exactly success false with error text "An error occurred", but a failing
create answers with the differently spelled text "An error occured" (api.py
line 106). -/
theorem c7_counterexample :
    (post_drink ⟨some "a", none⟩ (post_drink ⟨some "a", none⟩ store0).1).2.2 = 500 ∧
    (post_drink ⟨some "a", none⟩ (post_drink ⟨some "a", none⟩ store0).1).2.1 =
      Json.obj [("success", .bool false), ("error", .str "An error occured")] ∧
    "An error occured" ≠ "An error occurred" :=
  ⟨rfl, rfl, by decide⟩

/-- C7 (amended): any store failure yields a 500 whose body is success false
with a fixed error text and nothing else; the text is "An error occurred"
for the two list operations but "An error occured" (sic) for create, update
and delete. -/
theorem c7_store_failures_500 :
    (get_drinks (Except.error ()) = (errOccurred, 500)) ∧
    (get_drink_details (Except.error ()) = (errOccurred, 500)) ∧
    (∀ body st, st.insertDrink body.title body.recipe = .error () →
      post_drink body st = (st, errOccured, 500)) ∧
    (∀ i body st, st.rows.any (fun d => d.id == i) = true →
      st.updateRow i body.title body.recipe = .error () →
      update_drink i body st = (st, errOccured, 500)) ∧
    (∀ i st, st.rows.any (fun d => d.id == i) = true →
      delete_drink_checked i st false = (st, errOccured, 500)) := by
  refine ⟨rfl, rfl, ?_, ?_, ?_⟩
  · intro body st h
    unfold post_drink
    rw [h]
  · intro i body st hex h
    unfold update_drink
    simp [hex, h]
  · intro i st hex
    unfold delete_drink_checked
    simp [hex]

/-- C7 witness: a concrete duplicate-title create fails with the misspelled
500 body, and a concrete delete whose store commit fails answers the same
body with the store unchanged. -/
theorem c7_witness :
    (post_drink ⟨some "a", none⟩ (post_drink ⟨some "a", none⟩ store0).1 =
      ((post_drink ⟨some "a", none⟩ store0).1, errOccured, 500)) ∧
    (delete_drink_checked 1 (post_drink ⟨some "a", none⟩ store0).1 false =
      ((post_drink ⟨some "a", none⟩ store0).1, errOccured, 500)) :=
  ⟨c7_store_failures_500.2.2.1 ⟨some "a", none⟩
    (post_drink ⟨some "a", none⟩ store0).1 rfl,
   c7_store_failures_500.2.2.2.2 1
    (post_drink ⟨some "a", none⟩ store0).1 rfl⟩

/-- C9: on a gated route, a missing or malformed authorization header, an
unknown signing key and any verification failure answer 401; an absent
permissions claim answers 400; a missing required scope answers 403; and
every gate rejection's body is the structured success false / error /
description envelope. -/
theorem c9_auth_error_mapping (tok : Token) (scope : String) :
    ((gateResponse .missing scope).map Prod.snd = some 401) ∧
    ((gateResponse .malformed scope).map Prod.snd = some 401) ∧
    (tok.keyKnown = false →
      (gateResponse (.bearer tok) scope).map Prod.snd = some 401) ∧
    (tok.keyKnown = true → tok.verified = false →
      (gateResponse (.bearer tok) scope).map Prod.snd = some 401) ∧
    (tok.keyKnown = true → tok.verified = true → tok.scopes = none →
      (gateResponse (.bearer tok) scope).map Prod.snd = some 400) ∧
    (∀ scopes, tok.keyKnown = true → tok.verified = true →
      tok.scopes = some scopes → scope ∉ scopes →
      (gateResponse (.bearer tok) scope).map Prod.snd = some 403) ∧
    (∀ hdr r, gateResponse hdr scope = some r →
      ∃ code description, r.1 = authEnvelope code description) := by
  refine ⟨rfl, rfl, ?_, ?_, ?_, ?_, ?_⟩
  · intro h
    simp [gateResponse, authorize, handle_auth_error, h]
  · intro h1 h2
    simp [gateResponse, authorize, handle_auth_error, h1, h2]
  · intro h1 h2 h3
    simp [gateResponse, authorize, handle_auth_error, h1, h2, h3]
  · intro scopes h1 h2 h3 h4
    simp [gateResponse, authorize, handle_auth_error, h1, h2, h3, h4]
  · intro hdr r hr
    cases hdr with
    | missing =>
      replace hr : some ((authEnvelope "malformed_header"
          "Authorization header is expected", 401) : Json × Nat) = some r := hr
      injection hr with hr
      subst hr
      exact ⟨_, _, rfl⟩
    | malformed =>
      replace hr : some ((authEnvelope "malformed_header"
          "Authorization header must be a bearer token", 401) : Json × Nat) =
            some r := hr
      injection hr with hr
      subst hr
      exact ⟨_, _, rfl⟩
    | bearer tok2 =>
      obtain ⟨k, v, s⟩ := tok2
      cases k with
      | false =>
        replace hr : some ((authEnvelope "unknown_key"
            "Unable to find the appropriate key", 401) : Json × Nat) =
              some r := hr
        injection hr with hr
        subst hr
        exact ⟨_, _, rfl⟩
      | true =>
        cases v with
        | false =>
          replace hr : some ((authEnvelope "invalid_token"
              "Token verification failed", 401) : Json × Nat) = some r := hr
          injection hr with hr
          subst hr
          exact ⟨_, _, rfl⟩
        | true =>
          cases s with
          | none =>
            replace hr : some ((authEnvelope "missing_permissions_claim"
                "Permissions claim not found in token", 400) : Json × Nat) =
                  some r := hr
            injection hr with hr
            subst hr
            exact ⟨_, _, rfl⟩
          | some scopes =>
            by_cases hmem : scope ∈ scopes
            · have h2 : gateResponse (.bearer ⟨true, true, some scopes⟩) scope
                  = none := by
                simp [gateResponse, authorize, hmem]
              rw [h2] at hr
              exact Option.noConfusion hr
            · have h2 : gateResponse (.bearer ⟨true, true, some scopes⟩) scope
                  = some (authEnvelope "insufficient_scope"
                      "Required scope not found in token", 403) := by
                simp [gateResponse, authorize, handle_auth_error, hmem]
              rw [h2] at hr
              injection hr with hr
              subst hr
              exact ⟨_, _, rfl⟩

/-- C9 witness: a token with a known key, verified claims, and a scope list
lacking the required scope is answered 403. -/
theorem c9_witness :
    (gateResponse (.bearer ⟨true, true, some ["get:drinks"]⟩)
        "get:drinks-detail").map Prod.snd = some 403 :=
  (c9_auth_error_mapping ⟨true, true, some ["get:drinks"]⟩
      "get:drinks-detail").2.2.2.2.2.1 ["get:drinks"] rfl rfl rfl (by decide)

/-- C8: for every drink, the brief projection of the public list equals the
detailed projection with exactly the name field removed from each recipe
entry. -/
theorem c8_brief_is_detailed_minus_names (d : Drink) :
    briefOfDetailed (Drink.long d) = Drink.short d := by
  obtain ⟨i, t, r⟩ := d
  cases r with
  | none => rfl
  | some es =>
    have hfuse : (stripEntryName ∘ fun e : RecipeEntry =>
        Json.obj [("name", .str e.name), ("color", .str e.color),
                  ("parts", .num e.parts)]) =
        fun e : RecipeEntry =>
          Json.obj [("color", .str e.color), ("parts", .num e.parts)] := by
      funext e
      rfl
    show Json.obj [("id", .num i), ("title", optStr t),
        ("recipe", .arr (List.map stripEntryName (es.map fun e =>
          Json.obj [("name", .str e.name), ("color", .str e.color),
                    ("parts", .num e.parts)])))] =
      Json.obj [("id", .num i), ("title", optStr t),
        ("recipe", .arr (es.map fun e =>
          Json.obj [("color", .str e.color), ("parts", .num e.parts)]))]
    rw [List.map_map, hfuse]

/-- State effect of the create handler. -/
lemma post_drink_state (body : DrinkBody) (st : Store) :
    (post_drink body st).1 =
      if titleTaken st.rows body.title then st
      else ⟨st.rows ++ [⟨st.nextId, body.title, body.recipe⟩],
            st.nextId + 1⟩ := by
  unfold post_drink Store.insertDrink
  by_cases hc : titleTaken st.rows body.title = true <;> simp [hc]

/-- State effect of the update handler. -/
lemma update_drink_state (i : Nat) (body : DrinkBody) (st : Store) :
    (update_drink i body st).1 =
      if st.rows.any (fun d => d.id == i) = true then
        if titleTakenByOther st.rows i body.title then st
        else ⟨st.rows.map (fun d =>
            if d.id = i then
              { d with title := body.title, recipe := body.recipe }
            else d),
          st.nextId⟩
      else st := by
  unfold update_drink Store.updateRow
  by_cases hex : st.rows.any (fun d => d.id == i) = true
  · by_cases hc : titleTakenByOther st.rows i body.title = true <;>
      simp [hex, hc]
  · simp [hex]

/-- With a succeeding store commit, the checked delete is exactly the delete
handler. -/
lemma delete_drink_checked_ok (i : Nat) (st : Store) :
    delete_drink_checked i st true = delete_drink i st := by
  unfold delete_drink_checked delete_drink
  by_cases hex : st.rows.any (fun d => d.id == i) = true <;> simp [hex]

/-- State effect of the delete handler. -/
lemma delete_drink_state (i : Nat) (st : Store) :
    (delete_drink i st).1 =
      if st.rows.any (fun d => d.id == i) = true then
        ⟨st.rows.filter (fun d => d.id != i), st.nextId⟩
      else st := by
  unfold delete_drink
  by_cases hex : st.rows.any (fun d => d.id == i) = true <;> simp [hex]

lemma storeInv_init : StoreInv store0 :=
  ⟨⟨List.Pairwise.nil, by intro d hd; cases hd⟩, List.Pairwise.nil⟩

lemma storeInv_post (body : DrinkBody) (st : Store) (h : StoreInv st) :
    StoreInv (post_drink body st).1 := by
  rw [post_drink_state]
  by_cases hc : titleTaken st.rows body.title = true
  · simp only [hc, if_true]
    exact h
  · simp only [hc, Bool.false_eq_true, if_false]
    obtain ⟨⟨hids, hlt⟩, htitles⟩ := h
    refine ⟨⟨?_, ?_⟩, ?_⟩
    · rw [List.pairwise_append]
      refine ⟨hids, List.pairwise_singleton _ _, ?_⟩
      intro a ha b hb
      simp only [List.mem_singleton] at hb
      subst hb
      exact Nat.ne_of_lt (hlt a ha)
    · intro d hd
      rcases List.mem_append.1 hd with hd | hd
      · exact Nat.lt_succ_of_lt (hlt d hd)
      · simp only [List.mem_singleton] at hd
        subst hd
        exact Nat.lt_succ_self _
    · rw [TitlesOk, List.pairwise_append]
      refine ⟨htitles, List.pairwise_singleton _ _, ?_⟩
      intro a ha b hb t hat
      simp only [List.mem_singleton] at hb
      subst hb
      intro hbt
      cases hbody : body.title with
      | none => rw [hbody] at hbt; cases hbt
      | some tb =>
        rw [hbody] at hbt
        injection hbt with hbt
        subst hbt
        refine hc ?_
        simp only [titleTaken, hbody, List.any_eq_true]
        exact ⟨a, ha, by simpa using hat⟩

lemma storeInv_update (i : Nat) (body : DrinkBody) (st : Store)
    (h : StoreInv st) : StoreInv (update_drink i body st).1 := by
  rw [update_drink_state]
  by_cases hex : st.rows.any (fun d => d.id == i) = true
  · by_cases hc : titleTakenByOther st.rows i body.title = true
    · simp only [hex, hc, if_true]
      exact h
    · simp only [hex, hc, Bool.false_eq_true, if_false, if_true]
      obtain ⟨⟨hids, hlt⟩, htitles⟩ := h
      have hfid : ∀ d : Drink,
          ((if d.id = i then
              { d with title := body.title, recipe := body.recipe }
            else d) : Drink).id = d.id := by
        intro d
        by_cases hd : d.id = i <;> simp [hd]
      refine ⟨⟨?_, ?_⟩, ?_⟩
      · rw [List.pairwise_map]
        refine hids.imp ?_
        intro a b hab
        rw [hfid, hfid]
        exact hab
      · intro d hd
        obtain ⟨d0, hd0, rfl⟩ := List.mem_map.1 hd
        rw [hfid d0]
        exact hlt d0 hd0
      · rw [TitlesOk, List.pairwise_map]
        refine (hids.and htitles).imp_of_mem ?_
        intro a b ha hb hab t hat hbt
        by_cases haid : a.id = i
        · by_cases hbid : b.id = i
          · exact hab.1 (haid.trans hbid.symm)
          · simp only [haid, if_true, hbid, if_false] at hat hbt
            refine hc ?_
            simp only [titleTakenByOther]
            cases hbody : body.title with
            | none => rw [hbody] at hat; cases hat
            | some tb =>
              rw [hbody] at hat
              injection hat with hat
              subst hat
              simp only [List.any_eq_true]
              exact ⟨b, hb, by simp [hbid, hbt]⟩
        · by_cases hbid : b.id = i
          · simp only [haid, if_false, hbid, if_true] at hat hbt
            refine hc ?_
            simp only [titleTakenByOther]
            cases hbody : body.title with
            | none => rw [hbody] at hbt; cases hbt
            | some tb =>
              rw [hbody] at hbt
              injection hbt with hbt
              subst hbt
              simp only [List.any_eq_true]
              exact ⟨a, ha, by simp [haid, hat]⟩
          · simp only [haid, if_false, hbid] at hat hbt
            exact hab.2 t hat hbt
  · simp only [hex, Bool.false_eq_true, if_false]
    exact h

lemma storeInv_delete (i : Nat) (st : Store) (h : StoreInv st) :
    StoreInv (delete_drink i st).1 := by
  rw [delete_drink_state]
  by_cases hex : st.rows.any (fun d => d.id == i) = true
  · simp only [hex, if_true]
    obtain ⟨⟨hids, hlt⟩, htitles⟩ := h
    refine ⟨⟨hids.sublist (List.filter_sublist _), ?_⟩,
            htitles.sublist (List.filter_sublist _)⟩
    intro d hd
    exact hlt d (List.mem_filter.1 hd).1
  · simp only [hex, Bool.false_eq_true, if_false]
    exact h

/-- Every reachable store state satisfies the store invariant. -/
lemma reachable_inv {st : Store} (h : Reachable st) : StoreInv st := by
  induction h with
  | init => exact storeInv_init
  | create body st _ ih => exact storeInv_post body st ih
  | patch i body st _ ih => exact storeInv_update i body st ih
  | remove i st _ ih => exact storeInv_delete i st ih

/-- C3 counterexample: titles are not unique in every reachable state.  Two
drinks are created with distinct titles and each is then updated with a body
omitting the title; both stored titles become null, so two rows share a
title.  The nulling update is mandated by the spec itself (section 4.2). -/
theorem c3_counterexample :
    ¬ ∀ st : Store, Reachable st →
        st.rows.Pairwise fun a b => a.title ≠ b.title := by
  intro h
  have hr : Reachable dupTitleState :=
    Reachable.patch 2 ⟨none, none⟩ _
      (Reachable.patch 1 ⟨none, none⟩ _
        (Reachable.create ⟨some "b", none⟩ _
          (Reachable.create ⟨some "a", none⟩ _ Reachable.init)))
  have hpw := h dupTitleState hr
  have heq : dupTitleState.rows = [⟨1, none, none⟩, ⟨2, none, none⟩] := rfl
  rw [heq] at hpw
  exact (List.pairwise_cons.1 hpw).1 ⟨2, none, none⟩ (by simp) rfl

/-- C3 (amended): in every reachable store state no two rows share a
non-null title (titles nulled by the update quirk are exempt), and a create
whose title equals an existing row's title fails with status 500 and leaves
the store unchanged, so it creates no duplicate. -/
theorem c3_title_uniqueness (st : Store) (h : Reachable st) :
    (st.rows.Pairwise fun a b =>
      ∀ t : String, a.title = some t → b.title ≠ some t) ∧
    ∀ body : DrinkBody, ∀ t : String, body.title = some t →
      (∃ d ∈ st.rows, d.title = some t) →
      (post_drink body st).2.2 = 500 ∧ (post_drink body st).1 = st := by
  refine ⟨(reachable_inv h).2, ?_⟩
  intro body t hbt hex
  obtain ⟨d, hd, hdt⟩ := hex
  have hc : titleTaken st.rows body.title = true := by
    simp only [titleTaken, hbt, List.any_eq_true]
    exact ⟨d, hd, by simpa using hdt⟩
  unfold post_drink Store.insertDrink
  simp [hc]

/-- C3 witness: a one-drink reachable store, where re-creating the same
title fails with 500 and changes nothing. -/
theorem c3_witness :
    ((post_drink ⟨some "a", none⟩ store0).1.rows.Pairwise fun a b =>
      ∀ t : String, a.title = some t → b.title ≠ some t) ∧
    (post_drink ⟨some "a", none⟩ (post_drink ⟨some "a", none⟩ store0).1).2.2 =
      500 ∧
    (post_drink ⟨some "a", none⟩ (post_drink ⟨some "a", none⟩ store0).1).1 =
      (post_drink ⟨some "a", none⟩ store0).1 := by
  have h := c3_title_uniqueness (post_drink ⟨some "a", none⟩ store0).1
    (Reachable.create ⟨some "a", none⟩ store0 Reachable.init)
  refine ⟨h.1, ?_⟩
  exact h.2 ⟨some "a", none⟩ "a" rfl ⟨⟨1, some "a", none⟩, by decide, rfl⟩

end CoffeeShop
